import Mathlib

/-!
Verification of the Enrichment Resolution & Delivery subsystem of the
Disaster Response Coordination Platform.

The JavaScript source is embedded shallowly:
- the Supabase-backed TTL cache (`utils/cache.js`) becomes a pure state
  transformer over an explicit backend state that is either `up` (a list of
  rows of the `cache` table), `erroring` (the store answers every call with
  an error object) or `down` (every call throws);
- the Express route handlers for geocoding (`routes/geocoding.js` body of
  `updates.js`-file `router.post('/')`), image verification
  (`routes/verification.js` `router.post('/:id/verify-image')`) and the
  socket room helpers become pure functions that thread the cache state and
  count external provider invocations;
- JavaScript strings are `String`/`List Char`, numbers are `Int`/`ℚ`
  (timestamps in milliseconds), and `Math.random()` and the wall clock are
  explicit parameters.
-/

/-! ## JavaScript string primitives -/

/-- ASCII uppercase letter test, `[A-Z]`. -/
def isAsciiUpper (c : Char) : Bool := 65 ≤ c.toNat && c.toNat ≤ 90

/-- ASCII lowercase letter test, `[a-z]`. -/
def isAsciiLower (c : Char) : Bool := 97 ≤ c.toNat && c.toNat ≤ 122

/-- ASCII letter test, `[a-zA-Z]` (also `[A-Z]` under the `/i` flag). -/
def isAlphaAscii (c : Char) : Bool := isAsciiUpper c || isAsciiLower c

/-- The ASCII part of the JavaScript regex class `\s` (the inputs of the
claims contain only ASCII whitespace). -/
def isJsSpace (c : Char) : Bool :=
  c == ' ' || c == '\t' || c == '\n' || c == '\r' || c == '\x0b' || c == '\x0c'

/-- ASCII case folding of one character; models `String.prototype.toLowerCase`
on the ASCII inputs used by the program. -/
def lowerChar (c : Char) : Char :=
  if isAsciiUpper c then Char.ofNat (c.toNat + 32) else c

/-- Lowercasing of a character list, `s.toLowerCase()`. -/
def lowerL (l : List Char) : List Char := l.map lowerChar

/-- Substring test `hay.includes(needle)`; first argument is the needle. -/
def containsSub (needle : List Char) : List Char → Bool
  | [] => needle.isEmpty
  | c :: t => needle.isPrefixOf (c :: t) || containsSub needle t

/-- JavaScript `String.prototype.trim` restricted to ASCII whitespace. -/
def trimJS (l : List Char) : List Char :=
  ((l.dropWhile isJsSpace).reverse.dropWhile isJsSpace).reverse

/-- Replace the first occurrence of `pat` by the empty string, as in
`s.replace('Bearer ', '')`. -/
def replaceFirstL (pat : List Char) : List Char → List Char
  | [] => []
  | c :: cs =>
    if pat.isPrefixOf (c :: cs) then (c :: cs).drop pat.length
    else c :: replaceFirstL pat cs

/-! ### Base64 and UTF-8, used for `Buffer.from(x).toString('base64')`
cache-key derivation. -/

/-- UTF-8 encoding of one code point as byte values. -/
def utf8Bytes (c : Char) : List Nat :=
  let n := c.toNat
  if n < 128 then [n]
  else if n < 2048 then [192 + n / 64, 128 + n % 64]
  else if n < 65536 then [224 + n / 4096, 128 + (n / 64) % 64, 128 + n % 64]
  else [240 + n / 262144, 128 + (n / 4096) % 64, 128 + (n / 64) % 64, 128 + n % 64]

/-- UTF-8 bytes of a string. -/
def strBytes (s : String) : List Nat :=
  s.data.foldr (fun c acc => utf8Bytes c ++ acc) []

/-- The base64 alphabet. -/
def b64Alphabet : List Char :=
  "ABCDEFGHIJKLMNOPQRSTUVWXYZabcdefghijklmnopqrstuvwxyz0123456789+/".data

/-- Character of one 6-bit group. -/
def b64CharOf (n : Nat) : Char := b64Alphabet.getD n 'A'

/-- Base64 encoding of a byte list, three bytes at a time with `=` padding. -/
def b64Chunks : List Nat → List Char
  | [] => []
  | [a] => [b64CharOf (a / 4), b64CharOf (a % 4 * 16), '=', '=']
  | [a, b] => [b64CharOf (a / 4), b64CharOf (a % 4 * 16 + b / 16), b64CharOf (b % 16 * 4), '=']
  | a :: b :: c :: rest =>
    b64CharOf (a / 4) :: b64CharOf (a % 4 * 16 + b / 16) ::
      b64CharOf (b % 16 * 4 + c / 64) :: b64CharOf (c % 64) :: b64Chunks rest

/-- `Buffer.from(s).toString('base64')`. -/
def base64 (s : String) : String := (b64Chunks (strBytes s)).asString

/-! ## TTL cache store (`backend/src/utils/cache.js`) -/

/-- One row of the Supabase `cache` table: `key` (primary key), `value`,
`expires_at`.  Timestamps are absolute milliseconds. -/
structure CacheEntry (α : Type) where
  key : String
  value : α
  expiresAt : Int
  deriving Repr, DecidableEq

/-- State of the underlying store: reachable with the given rows, answering
every call with an error object, or throwing on every call. -/
inductive CacheBackend (α : Type) where
  | up (entries : List (CacheEntry α))
  | erroring
  | down
  deriving Repr, DecidableEq

/-- Point lookup of the row with the given key (the key is a primary key, so
at most one row matches; on a list we take the first). -/
def cacheLookup (l : List (CacheEntry α)) (key : String) : Option (CacheEntry α) :=
  l.find? (fun e => e.key == key)

/-- `getFromCache(key)`: select the row; on store error or no row return
`null`; if the entry has expired (`expires_at < now`) delete it and return
`null`; otherwise return the value.  A thrown store error is caught and also
yields `null`.  Returns the value (or miss) together with the new store
state. -/
def getFromCache : CacheBackend α → String → Int → Option α × CacheBackend α
  | .up l, key, now =>
    match cacheLookup l key with
    | none => (none, .up l)
    | some e =>
      if e.expiresAt < now then
        (none, .up (l.filter (fun e2 => !(e2.key == key))))
      else
        (some e.value, .up l)
  | .erroring, _, _ => (none, .erroring)
  | .down, _, _ => (none, .down)

/-- `setCache(key, value, ttlSeconds)`: upsert the row with
`expires_at = Date.now() + ttlSeconds * 1000`.  Store errors are logged and
swallowed, so on a faulty backend the call is a no-op. -/
def setCache : CacheBackend α → String → α → Int → Int → CacheBackend α
  | .up l, key, value, ttl, now =>
    .up (⟨key, value, now + ttl * 1000⟩ :: l.filter (fun e => !(e.key == key)))
  | .erroring, _, _, _, _ => .erroring
  | .down, _, _, _, _ => .down

/-- After filtering out every row with the given key, the lookup misses. -/
theorem cacheLookup_filter_ne (l : List (CacheEntry α)) (key : String) :
    cacheLookup (l.filter (fun e2 => !(e2.key == key))) key = none := by
  unfold cacheLookup
  cases h : List.find? (fun e => e.key == key) (l.filter (fun e2 => !(e2.key == key))) with
  | none => rfl
  | some e =>
    have hp := List.find?_some h
    have hm := List.mem_of_find?_eq_some h
    have hq := List.of_mem_filter hm
    rw [hp] at hq
    simp at hq

/-- C2: a `get` on an entry whose expiry has passed misses and deletes the
entry, and an immediately following `get` on the same key also misses; both
calls are total (never raise). -/
theorem expired_get_self_cleaning
    (α : Type) (l : List (CacheEntry α)) (key : String) (e : CacheEntry α)
    (now now2 : Int)
    (hfind : cacheLookup l key = some e)
    (hexp : e.expiresAt < now) :
    getFromCache (.up l) key now
      = (none, .up (l.filter (fun e2 => !(e2.key == key)))) ∧
    getFromCache (.up (l.filter (fun e2 => !(e2.key == key)))) key now2
      = (none, .up (l.filter (fun e2 => !(e2.key == key)))) := by
  constructor
  · simp only [getFromCache]
    rw [hfind]
    simp [hexp]
  · simp only [getFromCache]
    rw [cacheLookup_filter_ne]

/-- Witness for C2 on a concrete store: a single entry for key "k" that
expired at time 5, read at time 10 and again at time 11. -/
theorem expired_get_self_cleaning_witness :
    getFromCache (.up [⟨"k", 7, 5⟩]) "k" 10
      = (none, .up (([⟨"k", 7, 5⟩] : List (CacheEntry Nat)).filter (fun e2 => !(e2.key == "k")))) ∧
    getFromCache (.up (([⟨"k", 7, 5⟩] : List (CacheEntry Nat)).filter (fun e2 => !(e2.key == "k")))) "k" 11
      = (none, .up (([⟨"k", 7, 5⟩] : List (CacheEntry Nat)).filter (fun e2 => !(e2.key == "k")))) :=
  expired_get_self_cleaning Nat [⟨"k", 7, 5⟩] "k" ⟨"k", 7, 5⟩ 10 11 (by decide) (by decide)

/-! ## A small matcher for the fixed regex patterns of
`mockLocationExtraction` (`routes/geocoding.js`).

Each of the four `locationPatterns` is a sequence of greedy single-class
quantified items, so JavaScript regex semantics (leftmost match, greedy
quantifiers with backtracking) is embedded exactly by trying, at each start
position, quantifier counts from largest to smallest. -/

/-- One regex item: a character class with a greedy `{lo,hi}` quantifier
(`hi = none` means unbounded). -/
structure RItem where
  cls : Char → Bool
  lo : Nat
  hi : Option Nat

/-- Length of the maximal prefix whose characters satisfy the class. -/
def countRun (cls : Char → Bool) : List Char → Nat
  | [] => 0
  | c :: cs => if cls c then countRun cls cs + 1 else 0

/-- Try consuming `c, c-1, ..., lo` characters (greedy order), passing the
remaining suffix to the continuation; first success wins. -/
def tryCounts (k : List Char → Option (List Char)) (s : List Char) (lo : Nat) :
    Nat → Option (List Char)
  | 0 => k s
  | c + 1 =>
    match k (s.drop (c + 1)) with
    | some v => some v
    | none => if lo ≤ c then tryCounts k s lo c else none

/-- Match a sequence of quantified items against a prefix of `s`, passing the
leftover suffix to the continuation, with greedy backtracking. -/
def matchItemsK : List RItem → List Char → (List Char → Option (List Char)) → Option (List Char)
  | [], s, k => k s
  | it :: rest, s, k =>
    let run := countRun it.cls s
    let hi := match it.hi with
      | none => run
      | some m => min run m
    if hi < it.lo then none
    else tryCounts (fun s2 => matchItemsK rest s2 k) s it.lo hi

/-- Match `pre` then the capture group `grp` at the start of `s`, returning
the text consumed by the group (the `match[1]` of the JavaScript call). -/
def matchPreGrp (pre grp : List RItem) (s : List Char) : Option (List Char) :=
  matchItemsK pre s fun s1 =>
    matchItemsK grp s1 fun s2 => some (s1.take (s1.length - s2.length))

/-- Leftmost match: try every start position from the left. -/
def scanMatch (pre grp : List RItem) : List Char → Option (List Char)
  | [] => matchPreGrp pre grp []
  | c :: cs =>
    match matchPreGrp pre grp (c :: cs) with
    | some g => some g
    | none => scanMatch pre grp cs

/-- A case-insensitive literal character item. -/
def ciChar (a b : Char) : RItem := ⟨fun c => c == a || c == b, 1, some 1⟩

/-- The class `[a-zA-Z\s,]` of the location-capture patterns. -/
def locBodyCls (c : Char) : Bool := isAlphaAscii c || isJsSpace c || c == ','

/-- Pattern 1, `/in\s+([A-Z][a-zA-Z\s,]+)/i`, part before the group. -/
def pat1pre : List RItem := [ciChar 'i' 'I', ciChar 'n' 'N', ⟨isJsSpace, 1, none⟩]

/-- The capture group `([A-Z][a-zA-Z\s,]+)` under `/i`. -/
def patCapGrp : List RItem := [⟨isAlphaAscii, 1, some 1⟩, ⟨locBodyCls, 1, none⟩]

/-- Pattern 2, `/at\s+([A-Z][a-zA-Z\s,]+)/i`, part before the group. -/
def pat2pre : List RItem := [ciChar 'a' 'A', ciChar 't' 'T', ⟨isJsSpace, 1, none⟩]

/-- Pattern 3, `/near\s+([A-Z][a-zA-Z\s,]+)/i`, part before the group. -/
def pat3pre : List RItem :=
  [ciChar 'n' 'N', ciChar 'e' 'E', ciChar 'a' 'A', ciChar 'r' 'R', ⟨isJsSpace, 1, none⟩]

/-- Pattern 4, `/([A-Z][a-zA-Z]+,?\s*[A-Z]{2,})/` (case-sensitive), which is
all capture group. -/
def pat4grp : List RItem :=
  [⟨isAsciiUpper, 1, some 1⟩, ⟨isAlphaAscii, 1, none⟩, ⟨fun c => c == ',', 0, some 1⟩,
   ⟨isJsSpace, 0, none⟩, ⟨isAsciiUpper, 2, none⟩]

/-- The `for (const pattern of locationPatterns)` loop: the first pattern
that matches supplies `match[1]`. -/
def locationPatternsMatch (text : List Char) : Option (List Char) :=
  (scanMatch pat1pre patCapGrp text).orElse fun _ =>
  (scanMatch pat2pre patCapGrp text).orElse fun _ =>
  (scanMatch pat3pre patCapGrp text).orElse fun _ =>
  scanMatch [] pat4grp text

/-! ## Geocoding route (`router.post('/')` and helpers) -/

/-- Geocoded coordinates as returned by every mapping provider and by the
mock table.  Latitude and longitude are exact rationals (the source's decimal
literals are exactly representable). -/
structure Coords where
  lat : ℚ
  lng : ℚ
  formatted_address : String
  service : String
  deriving Repr, DecidableEq

/-- The resolution result of the geocoding route.  The provider path does not
set a `mock` property; absence of the key is modelled by `mock := false`. -/
structure GeoResult where
  original_text : String
  extracted_location : String
  coordinates : Coords
  success : Bool
  mock : Bool
  deriving Repr, DecidableEq

/-- The fixed `mockCoordinates` gazetteer (latitudes and longitudes in exact
rational form, e.g. `40.7831 = 407831/10000`). -/
def mockCoordinates : List (String × ℚ × ℚ) :=
  [("Manhattan, NYC", (407831/10000, -739712/10000)),
   ("Brooklyn, NY", (406782/10000, -739442/10000)),
   ("Queens, NY", (407282/10000, -737949/10000)),
   ("Bronx, NY", (408448/10000, -738648/10000)),
   ("New York, NY", (407128/10000, -740060/10000)),
   ("Los Angeles, CA", (340522/10000, -1182437/10000)),
   ("Chicago, IL", (418781/10000, -876298/10000))]

/-- `mockLocationExtraction(text)`: pattern-match a location phrase out of the
text (default `"New York, NY"`), look its coordinates up in the gazetteer
(defaulting to the `"New York, NY"` entry), and tag the result
`service: "mock"`. -/
def mockLocationExtraction (text : String) : GeoResult :=
  let extractedLocation : String :=
    match locationPatternsMatch text.data with
    | some g => (trimJS g).asString
    | none => "New York, NY"
  let base := (mockCoordinates.lookup extractedLocation).getD (407128/10000, -740060/10000)
  { original_text := text
    extracted_location := extractedLocation
    coordinates :=
      { lat := base.1, lng := base.2, formatted_address := extractedLocation, service := "mock" }
    success := true
    mock := true }

/-- External dependencies of the geocoding route: which API keys are
configured, and the outcome each provider's network call would produce. -/
structure GeoDeps where
  geminiKey : Bool
  geminiExtractRaw : String → Except String String
  googleKey : Bool
  googleGeo : String → Except String Coords
  mapboxKey : Bool
  mapboxGeo : String → Except String Coords
  nominatimGeo : String → Except String Coords

/-- `extractLocationWithGemini(text)`: throws before any call when no API key
is configured; otherwise one provider call whose generated text is trimmed,
stripped of quote characters, and rejected when empty or containing
"not specified".  The second component counts provider invocations. -/
def extractLocationWithGemini (dp : GeoDeps) (text : String) :
    Except String String × Nat :=
  if !dp.geminiKey then (.error "Gemini API key not configured", 0)
  else
    match dp.geminiExtractRaw text with
    | .error e => (.error e, 1)
    | .ok gen =>
      if gen = "" then (.error "No response from Gemini API", 1)
      else
        let locationName :=
          ((trimJS gen.data).filter (fun c => !(c == '\'' || c == '"'))).asString
        if containsSub "not specified".data (lowerL locationName.data) then
          (.error "No location found in text", 1)
        else (.ok locationName, 1)

/-- `geocodeLocation(locationName)`: pick the first configured mapping
provider (Google Maps, then Mapbox, then Nominatim) and issue one call. -/
def geocodeLocation (dp : GeoDeps) (locationName : String) :
    Except String Coords × Nat :=
  if dp.googleKey then (dp.googleGeo locationName, 1)
  else if dp.mapboxKey then (dp.mapboxGeo locationName, 1)
  else (dp.nominatimGeo locationName, 1)

/-- Request body of the geocoding route. -/
structure GeoBody where
  text : Option String
  description : Option String

/-- JavaScript truthiness of an optional string: absent and `""` are falsy. -/
def truthy : Option String → Option String
  | none => none
  | some s => if s = "" then none else some s

/-- `text || description` after the `!text && !description` guard. -/
def inputTextOf (b : GeoBody) : Option String :=
  (truthy b.text).orElse fun _ => truthy b.description

/-- Response of the geocoding route: a JSON result or a 400 rejection. -/
inductive GeoResponse where
  | ok (r : GeoResult)
  | badRequest (msg : String)
  deriving Repr, DecidableEq

/-- Whether a geocoding response is a rejection. -/
def GeoResponse.isErr : GeoResponse → Bool
  | .ok _ => false
  | .badRequest _ => true

/-- The fresh (cache-miss) resolution of the geocoding route: extraction then
geocoding, falling back to `mockLocationExtraction` when either step fails.
Returns the result and the number of provider invocations. -/
def freshGeo (dp : GeoDeps) (inputText : String) : GeoResult × Nat :=
  match extractLocationWithGemini dp inputText with
  | (.error _, n1) => (mockLocationExtraction inputText, n1)
  | (.ok locationName, n1) =>
    match geocodeLocation dp locationName with
    | (.ok coordinates, n2) =>
      ({ original_text := inputText
         extracted_location := locationName
         coordinates := coordinates
         success := true
         mock := false }, n1 + n2)
    | (.error _, n2) => (mockLocationExtraction inputText, n1 + n2)

/-- The geocoding route handler: validate the payload, check the cache
(key `geocoding_<base64(input)>`), on miss resolve freshly and write the
result through with a 7200-second TTL.  Returns the response, the new cache
state and the number of provider invocations. -/
def geocodeRoute (dp : GeoDeps) (cache : CacheBackend GeoResult) (body : GeoBody)
    (now : Int) : GeoResponse × CacheBackend GeoResult × Nat :=
  match inputTextOf body with
  | none => (.badRequest "Text or description is required", cache, 0)
  | some inputText =>
    let cacheKey := "geocoding_" ++ base64 inputText
    match getFromCache cache cacheKey now with
    | (some r, c1) => (.ok r, c1, 0)
    | (none, c1) =>
      let fr := freshGeo dp inputText
      (.ok fr.1, setCache c1 cacheKey fr.1 7200 now, fr.2)

/-! ## Image verification route (`router.post('/:id/verify-image')`) -/

/-- A disaster entity as used by the enrichment code: only its tags and
location name matter here. -/
structure Disaster where
  tags : List String
  location_name : Option String
  deriving Repr, DecidableEq

/-- The structured verdict extracted from the analysis provider's reply
(either parsed JSON or the surface-text heuristic). -/
structure Analysis where
  authenticity_score : ℚ
  manipulation_detected : Bool
  context_match : Bool
  analysis_summary : String
  confidence_level : String
  deriving Repr, DecidableEq

/-- The verification result returned by the route. -/
structure VerificationResult where
  status : String
  authenticity_score : ℚ
  manipulation_detected : Bool
  context_match : Bool
  analysis_summary : String
  confidence_level : String
  verification_method : String
  timestamp : String
  deriving Repr, DecidableEq

/-- The final object built by `verifyImageWithGemini` from a structured
verdict: the status thresholds the score (`> 70` verified, `> 40` suspicious,
otherwise fake). -/
def geminiVerdict (analysis : Analysis) (ts : String) : VerificationResult :=
  { status :=
      if analysis.authenticity_score > 70 then "verified"
      else if analysis.authenticity_score > 40 then "suspicious"
      else "fake"
    authenticity_score := analysis.authenticity_score
    manipulation_detected := analysis.manipulation_detected
    context_match := analysis.context_match
    analysis_summary := analysis.analysis_summary
    confidence_level := analysis.confidence_level
    verification_method := "gemini_api"
    timestamp := ts }

/-- The `suspiciousPatterns` list of `mockImageVerification`. -/
def suspiciousPatterns : List String := ["fake", "staged", "stock", "shutterstock"]

/-- Whether the lowercased URL contains one of the low-trust markers. -/
def isSuspiciousUrl (imageUrl : String) : Bool :=
  suspiciousPatterns.any fun pattern => containsSub pattern.data (lowerL imageUrl.data)

/-- `mockImageVerification(imageUrl, disaster)`: the fallback verdict.
`Math.random()` is the explicit parameter `rand` (a rational in `[0,1)`), so
`Math.floor(Math.random() * 40) + 60` is `⌊rand * 40⌋ + 60`. -/
def mockImageVerification (imageUrl : String) (disaster : Disaster) (rand : ℚ)
    (ts : String) : VerificationResult :=
  let score : Int := ⌊rand * 40⌋ + 60
  let isSuspicious := isSuspiciousUrl imageUrl
  { status :=
      if isSuspicious then "suspicious"
      else if score > 80 then "verified"
      else "pending"
    authenticity_score := if isSuspicious then 25 else (score : ℚ)
    manipulation_detected := isSuspicious
    context_match := true
    analysis_summary :=
      if isSuspicious then "Image shows signs of being staged or stock photography"
      else "Image appears authentic with no obvious signs of manipulation"
    confidence_level := "medium"
    verification_method := "mock_analysis"
    timestamp := ts }

/-- Outcome of the `.single()` disaster lookup: a row, no row, or a store
error (the route turns the former into progress, the latter two into 404 and
500 responses). -/
inductive DbLookup where
  | found (d : Disaster)
  | notFound
  | dbError (msg : String)

/-- External dependencies of the verification route. -/
structure VerifyDeps where
  geminiKey : Bool
  geminiAnalyze : String → Except String Analysis
  disasterLookup : String → DbLookup
  rand : ℚ
  ts : String

/-- Request body of the verification route. -/
structure VerifyBody where
  image_url : Option String
  report_id : Option String

/-- Response of the verification route. -/
inductive VResponse where
  | ok (r : VerificationResult)
  | badRequest (msg : String)
  | notFound (msg : String)
  | serverError (msg : String)
  deriving Repr, DecidableEq

/-- Whether a verification response is a rejection. -/
def VResponse.isErr : VResponse → Bool
  | .ok _ => false
  | _ => true

/-- The stored verification fields of one report row. -/
structure ReportRow where
  id : String
  verification_status : Option String
  verification_details : Option VerificationResult
  deriving Repr, DecidableEq

/-- The report update issued when a `report_id` is supplied (failures are
logged and swallowed, so only the successful update is modelled). -/
def updateReport (reports : List ReportRow) (rid : String) (vr : VerificationResult) :
    List ReportRow :=
  reports.map fun r =>
    if r.id = rid then { r with verification_status := some vr.status, verification_details := some vr }
    else r

/-- The fresh (cache-miss) verification: one provider attempt when the API
key is configured (the key check happens before any call), falling back to
`mockImageVerification`.  Returns the verdict and the provider-call count. -/
def freshVerify (dp : VerifyDeps) (url : String) (d : Disaster) :
    VerificationResult × Nat :=
  if !dp.geminiKey then (mockImageVerification url d dp.rand dp.ts, 0)
  else
    match dp.geminiAnalyze url with
    | .ok analysis => (geminiVerdict analysis dp.ts, 1)
    | .error _ => (mockImageVerification url d dp.rand dp.ts, 1)

/-- The verification route handler: validate the payload, check the cache
(key `image_verification_<base64(url)>`) before the disaster lookup, resolve
freshly on miss, optionally update the report, and write the verdict through
with a 3600-second TTL.  Returns the response, cache, reports, and the
provider-call count. -/
def verifyImageRoute (dp : VerifyDeps) (cache : CacheBackend VerificationResult)
    (reports : List ReportRow) (disasterId : String) (body : VerifyBody) (now : Int) :
    VResponse × CacheBackend VerificationResult × List ReportRow × Nat :=
  match truthy body.image_url with
  | none => (.badRequest "Image URL is required", cache, reports, 0)
  | some url =>
    let cacheKey := "image_verification_" ++ base64 url
    match getFromCache cache cacheKey now with
    | (some r, c1) => (.ok r, c1, reports, 0)
    | (none, c1) =>
      match dp.disasterLookup disasterId with
      | .dbError msg => (.serverError msg, c1, reports, 0)
      | .notFound => (.notFound "Disaster not found", c1, reports, 0)
      | .found d =>
        let fv := freshVerify dp url d
        let reports2 :=
          match truthy body.report_id with
          | some rid => updateReport reports rid fv.1
          | none => reports
        (.ok fv.1, setCache c1 cacheKey fv.1 3600 now, reports2, fv.2)

/-! ## Authentication middleware (`backend/src/middleware/index.js`) -/

/-- A mock user record. -/
structure User where
  id : String
  role : String
  name : String
  deriving Repr, DecidableEq

/-- The hard-coded `mockUsers` table. -/
def mockUsers : List (String × User) :=
  [("netrunnerX", ⟨"netrunnerX", "admin", "NetRunner X"⟩),
   ("reliefAdmin", ⟨"reliefAdmin", "admin", "Relief Admin"⟩),
   ("citizen1", ⟨"citizen1", "contributor", "Citizen Reporter"⟩)]

/-- The `citizen1` default user. -/
def citizen1User : User := ⟨"citizen1", "contributor", "Citizen Reporter"⟩

/-- What an Express middleware can do with a request: pass it on with an
assigned user, or reject it. -/
inductive MwOutcome where
  | next (user : User)
  | reject (status : Nat) (msg : String)
  deriving Repr, DecidableEq

/-- The user id derived from the Authorization header: a missing or empty
(falsy) header yields "citizen1", otherwise the first occurrence of
"Bearer " is stripped. -/
def headerUserId (authHeader : Option String) : String :=
  match authHeader with
  | none => "citizen1"
  | some h => if h = "" then "citizen1" else (replaceFirstL "Bearer ".data h.data).asString

/-- The `authenticate` middleware: look the derived id up in `mockUsers`,
default to `citizen1`, and call `next()` unconditionally. -/
def authenticate (authHeader : Option String) : MwOutcome :=
  .next ((mockUsers.lookup (headerUserId authHeader)).getD citizen1User)

/-! ## Broadcast hub (socket handlers) -/

/-- Room membership state: the set of (subscriber, room) pairs, as maintained
by `socket.join` / `socket.leave`. -/
abbrev Hub := List (String × String)

/-- Idempotent `socket.join(room)`. -/
def joinRoom (h : Hub) (sid room : String) : Hub :=
  if (sid, room) ∈ h then h else (sid, room) :: h

/-- `socket.leave(room)`. -/
def leaveRoom (h : Hub) (sid room : String) : Hub :=
  h.filter fun p => !(p.1 == sid && p.2 == room)

/-- The `join_disaster` handler: join room `disaster_<id>`. -/
def joinDisaster (h : Hub) (sid disasterId : String) : Hub :=
  joinRoom h sid ("disaster_" ++ disasterId)

/-- The `leave_disaster` handler: leave room `disaster_<id>`. -/
def leaveDisaster (h : Hub) (sid disasterId : String) : Hub :=
  leaveRoom h sid ("disaster_" ++ disasterId)

/-- The subscribers a room-scoped emit reaches: exactly the current members
of the room. -/
def roomRecipients (h : Hub) (room : String) : List String :=
  (h.filter fun p => p.2 == room).map fun p => p.1

/-- `emitToDisasterRoom(io, disasterId, event, data)`: the event is delivered
to the members of room `disaster_<id>`; the returned list is the set of
recipients. -/
def emitToDisasterRoom (h : Hub) (disasterId : String) : List String :=
  roomRecipients h ("disaster_" ++ disasterId)

/-! ## Relevance scorer (`routes/socialMedia.js`) -/

/-- A social media post as scored by `calculateRelevanceScore`; the
timestamp is absolute milliseconds. -/
structure Post where
  user : String
  post : String
  timestamp : ℚ
  platform : String
  priority : String
  keywords : List String

/-- The fixed priority weight table; an unknown priority scores `0` via
`priorityScores[post.priority] || 0`. -/
def priorityScores : List (String × ℚ) :=
  [("urgent", 10), ("high", 7), ("medium", 5), ("low", 2)]

/-- Splitting on the regex `[,\s]+`: maximal separator runs delimit tokens,
with an empty token at either end when the string starts or ends with a
separator.  The state is `some cur` while accumulating a token (reversed) and
`none` while inside a separator run. -/
def splitRunsAux (st : Option (List Char)) : List Char → List (List Char)
  | [] =>
    match st with
    | some cur => [cur.reverse]
    | none => [[]]
  | c :: cs =>
    if isJsSpace c || c == ',' then
      match st with
      | some cur => cur.reverse :: splitRunsAux none cs
      | none => splitRunsAux none cs
    else
      match st with
      | some cur => splitRunsAux (some (c :: cur)) cs
      | none => splitRunsAux (some [c]) cs

/-- `s.split(/[,\s]+/)`. -/
def splitRuns (l : List Char) : List (List Char) := splitRunsAux (some []) l

/-- `calculateRelevanceScore(post, disaster)`: priority weight, +5 per tag
found in the lowercased body, +3 per location token found in the body, and a
recency bonus `max(0, 5 - hoursOld)`. -/
def calculateRelevanceScore (post : Post) (disaster : Disaster) (now : ℚ) : ℚ :=
  let postLower := lowerL post.post.data
  let s0 : ℚ := (priorityScores.lookup post.priority).getD 0
  let s1 := disaster.tags.foldl
    (fun s tag => if containsSub (lowerL tag.data) postLower then s + 5 else s) s0
  let s2 := match disaster.location_name with
    | none => s1
    | some ln =>
      if ln = "" then s1
      else (splitRuns (lowerL ln.data)).foldl
        (fun s keyword => if containsSub keyword postLower then s + 3 else s) s1
  let hoursOld := (now - post.timestamp) / 3600000
  s2 + max 0 (5 - hoursOld)

/-! ## Claim C9: the authenticate middleware never rejects -/

/-- C9: `authenticate` assigns a user to every request and passes control on
(it can never produce a rejection): a missing header yields the mock user
`citizen1` (role `contributor`), and so does any bearer token that is not in
the `mockUsers` table. -/
theorem authenticate_never_rejects :
    (∀ authHeader : Option String, ∃ u : User, authenticate authHeader = .next u) ∧
    authenticate none = .next citizen1User ∧
    citizen1User.role = "contributor" ∧
    (∀ authHeader : Option String,
      mockUsers.lookup (headerUserId authHeader) = none →
      authenticate authHeader = .next citizen1User) := by
  refine ⟨fun h => ⟨_, rfl⟩, rfl, rfl, fun h hmiss => ?_⟩
  unfold authenticate
  rw [hmiss]
  rfl

/-- Witness for C9: an unrecognized bearer token resolves to `citizen1`. -/
theorem authenticate_never_rejects_witness :
    authenticate (some "Bearer nobody") = .next citizen1User :=
  authenticate_never_rejects.2.2.2 (some "Bearer nobody") (by decide)

/-! ## Claim C10: characterization of the mock image verification -/

/-- C10: the fallback verdict always has `context_match = true` and never
status "fake"; a URL containing a low-trust marker yields status
"suspicious", score exactly 25 and `manipulation_detected = true`; otherwise
the score lies in `[60, 99]`, `manipulation_detected = false`, and the status
is "verified" exactly when the score exceeds 80 and "pending" otherwise. -/
theorem mock_verification_characterization
    (url : String) (d : Disaster) (rand : ℚ) (ts : String)
    (h0 : 0 ≤ rand) (h1 : rand < 1) :
    (mockImageVerification url d rand ts).context_match = true ∧
    (mockImageVerification url d rand ts).status ≠ "fake" ∧
    (isSuspiciousUrl url = true →
      (mockImageVerification url d rand ts).status = "suspicious" ∧
      (mockImageVerification url d rand ts).authenticity_score = 25 ∧
      (mockImageVerification url d rand ts).manipulation_detected = true) ∧
    (isSuspiciousUrl url = false →
      (60 ≤ (mockImageVerification url d rand ts).authenticity_score ∧
       (mockImageVerification url d rand ts).authenticity_score ≤ 99) ∧
      (mockImageVerification url d rand ts).manipulation_detected = false ∧
      ((mockImageVerification url d rand ts).authenticity_score > 80 →
        (mockImageVerification url d rand ts).status = "verified") ∧
      (¬ (mockImageVerification url d rand ts).authenticity_score > 80 →
        (mockImageVerification url d rand ts).status = "pending")) := by
  have hfl0 : (0 : ℤ) ≤ ⌊rand * 40⌋ := Int.floor_nonneg.mpr (by positivity)
  have hfl1 : ⌊rand * 40⌋ < 40 := Int.floor_lt.mpr (by push_cast; nlinarith)
  have hstatus : (mockImageVerification url d rand ts).status
      = (if isSuspiciousUrl url then "suspicious"
         else if (⌊rand * 40⌋ + 60 : ℤ) > 80 then "verified" else "pending") := by
    simp [mockImageVerification]
  have hscore : (mockImageVerification url d rand ts).authenticity_score
      = (if isSuspiciousUrl url then (25 : ℚ) else ((⌊rand * 40⌋ + 60 : ℤ) : ℚ)) := by
    simp [mockImageVerification]
  have hmanip : (mockImageVerification url d rand ts).manipulation_detected
      = isSuspiciousUrl url := by
    simp [mockImageVerification]
  refine ⟨by simp [mockImageVerification], ?_, fun hs => ?_, fun hs => ?_⟩
  · rw [hstatus]
    split
    · decide
    · split <;> decide
  · rw [hs] at hstatus hscore hmanip
    simp only [if_true] at hstatus hscore
    exact ⟨hstatus, hscore, hmanip⟩
  · rw [hs] at hstatus hscore hmanip
    simp only [Bool.false_eq_true, if_false] at hstatus hscore
    refine ⟨⟨?_, ?_⟩, hmanip, fun hgt => ?_, fun hle => ?_⟩
    · rw [hscore]
      have hc : (0 : ℚ) ≤ ((⌊rand * 40⌋ : ℤ) : ℚ) := by exact_mod_cast hfl0
      push_cast
      linarith
    · rw [hscore]
      have hc : ((⌊rand * 40⌋ : ℤ) : ℚ) ≤ 39 := by
        exact_mod_cast (by omega : ⌊rand * 40⌋ ≤ 39)
      push_cast
      linarith
    · rw [hscore] at hgt
      rw [hstatus]
      have hz : (⌊rand * 40⌋ + 60 : ℤ) > 80 := by exact_mod_cast hgt
      simp [hz]
    · rw [hscore] at hle
      rw [hstatus]
      have hz : ¬ (⌊rand * 40⌋ + 60 : ℤ) > 80 := fun hc => hle (by exact_mod_cast hc)
      simp [hz]

/-- Witness for C10 at a non-suspicious URL and `rand = 1/2`. -/
theorem mock_verification_characterization_witness :
    (mockImageVerification "http://img.example/a.jpg" ⟨["flood"], some "Manhattan, NYC"⟩ (1/2) "t").context_match = true ∧
    (mockImageVerification "http://img.example/a.jpg" ⟨["flood"], some "Manhattan, NYC"⟩ (1/2) "t").status ≠ "fake" :=
  have h := mock_verification_characterization "http://img.example/a.jpg"
    ⟨["flood"], some "Manhattan, NYC"⟩ (1/2) "t" (by norm_num) (by norm_num)
  ⟨h.1, h.2.1⟩

/-! ## Claim C3: status thresholding (corrected) -/

/-- Counterexample to C3 as stated: on the fallback path, a URL containing
the marker "fake" produces `authenticity_score = 25` (which is `≤ 40`), yet
the status is "suspicious", not the "fake" that the claimed thresholding
would require. -/
theorem fallback_status_not_thresholded_cex :
    (mockImageVerification "http://fake.example/a.jpg" ⟨["flood"], some "Manhattan, NYC"⟩ 0 "t").authenticity_score ≤ 40 ∧
    (mockImageVerification "http://fake.example/a.jpg" ⟨["flood"], some "Manhattan, NYC"⟩ 0 "t").status ≠ "fake" ∧
    (mockImageVerification "http://fake.example/a.jpg" ⟨["flood"], some "Manhattan, NYC"⟩ 0 "t").status = "suspicious" := by
  refine ⟨?_, ?_, ?_⟩ <;> simp [mockImageVerification, isSuspiciousUrl,
    suspiciousPatterns, lowerL, lowerChar, isAsciiUpper] <;> decide

/-- C3 amended: the `score > 70` / `40 < score ≤ 70` / `score ≤ 40`
thresholding determines the status on the provider path only; the fallback
path instead returns "suspicious" for marker URLs and otherwise "verified"
exactly when its random score exceeds 80, else "pending" (and never
"fake"). -/
theorem verification_status_thresholds_amended
    (analysis : Analysis) (ts : String) (url : String) (d : Disaster) (rand : ℚ) :
    ((analysis.authenticity_score > 70 →
        (geminiVerdict analysis ts).status = "verified") ∧
     (analysis.authenticity_score ≤ 70 → analysis.authenticity_score > 40 →
        (geminiVerdict analysis ts).status = "suspicious") ∧
     (analysis.authenticity_score ≤ 40 →
        (geminiVerdict analysis ts).status = "fake")) ∧
    (isSuspiciousUrl url = true →
       (mockImageVerification url d rand ts).status = "suspicious") ∧
    (isSuspiciousUrl url = false →
       (mockImageVerification url d rand ts).status
         = (if (⌊rand * 40⌋ + 60 : ℤ) > 80 then "verified" else "pending") ∧
       (mockImageVerification url d rand ts).status ≠ "fake") := by
  refine ⟨⟨fun h70 => ?_, fun hle hgt => ?_, fun h40 => ?_⟩, fun hs => ?_, fun hs => ?_⟩
  · simp [geminiVerdict, h70]
  · simp [geminiVerdict, not_lt.mpr hle, hgt]
  · simp [geminiVerdict, not_lt.mpr h40, not_lt.mpr (le_trans h40 (by norm_num : (40:ℚ) ≤ 70))]
  · simp [mockImageVerification, hs]
  · constructor
    · simp [mockImageVerification, hs]
    · simp only [mockImageVerification, hs, Bool.false_eq_true, if_false]
      split <;> decide

/-- Witness for the amended C3 at scores 75 (provider path) and a marker URL
(fallback path). -/
theorem verification_status_thresholds_amended_witness :
    (geminiVerdict ⟨75, false, true, "s", "high"⟩ "t").status = "verified" ∧
    (mockImageVerification "http://fake.example/a.jpg" ⟨["flood"], some "Manhattan, NYC"⟩ 0 "t").status = "suspicious" :=
  have h := verification_status_thresholds_amended ⟨75, false, true, "s", "high"⟩ "t"
    "http://fake.example/a.jpg" ⟨["flood"], some "Manhattan, NYC"⟩ 0
  ⟨h.1.1 (by norm_num), h.2.1 (by decide)⟩

/-! ## Claim C4: room-scoped publish reaches exactly the members -/

/-- Membership characterization of the recipients of a room-scoped emit. -/
theorem mem_roomRecipients (h : Hub) (room s : String) :
    s ∈ roomRecipients h room ↔ (s, room) ∈ h := by
  unfold roomRecipients
  simp only [List.mem_map, List.mem_filter, beq_iff_eq]
  constructor
  · rintro ⟨⟨p1, p2⟩, ⟨hp, hr⟩, hs⟩
    simp only at hr hs
    rw [hs, hr] at hp
    exact hp
  · intro hm
    exact ⟨(s, room), ⟨hm, rfl⟩, rfl⟩

/-- C4: an event emitted to a disaster room is delivered to exactly the
subscribers currently joined to that room: membership characterizes
delivery, a subscriber that joined receives it, a subscriber joined only to
a different room does not, and a subscriber that left beforehand does not. -/
theorem room_publish_exact_membership :
    (∀ (h : Hub) (did s : String),
       s ∈ emitToDisasterRoom h did ↔ (s, "disaster_" ++ did) ∈ h) ∧
    (∀ (h : Hub) (did s : String),
       s ∈ emitToDisasterRoom (joinDisaster h s did) did) ∧
    (∀ (h : Hub) (did did2 s : String),
       (s, "disaster_" ++ did) ∉ h → did ≠ did2 →
       s ∉ emitToDisasterRoom (joinDisaster h s did2) did) ∧
    (∀ (h : Hub) (did s : String),
       s ∉ emitToDisasterRoom (leaveDisaster h s did) did) := by
  have hmem : ∀ (h : Hub) (did s : String),
      s ∈ emitToDisasterRoom h did ↔ (s, "disaster_" ++ did) ∈ h := by
    intro h did s
    exact mem_roomRecipients h ("disaster_" ++ did) s
  refine ⟨hmem, fun h did s => ?_, fun h did did2 s hnm hne => ?_, fun h did s => ?_⟩
  · rw [hmem]
    unfold joinDisaster joinRoom
    split
    · assumption
    · exact List.mem_cons_self _ _
  · rw [hmem]
    unfold joinDisaster joinRoom
    have hrooms : ("disaster_" ++ did : String) ≠ "disaster_" ++ did2 := by
      intro hc
      apply hne
      have hdata := congrArg String.data hc
      simp only [String.data_append] at hdata
      exact String.ext (List.append_cancel_left hdata)
    split
    · exact hnm
    · intro hc
      rcases List.mem_cons.mp hc with hc1 | hc2
      · exact hrooms (congrArg Prod.snd hc1)
      · exact hnm hc2
  · rw [hmem]
    unfold leaveDisaster leaveRoom
    intro hc
    have hq := List.of_mem_filter hc
    simp at hq

/-- Witness for C4: concrete hub with one subscriber in room `disaster_1`,
checking all four parts. -/
theorem room_publish_exact_membership_witness :
    ("sockA" ∈ emitToDisasterRoom [("sockA", "disaster_1")] "1"
       ↔ (("sockA", "disaster_1") : String × String) ∈ [("sockA", "disaster_1")]) ∧
    "sockA" ∈ emitToDisasterRoom (joinDisaster [] "sockA" "1") "1" ∧
    "sockA" ∉ emitToDisasterRoom (joinDisaster [] "sockA" "2") "1" ∧
    "sockA" ∉ emitToDisasterRoom (leaveDisaster [("sockA", "disaster_1")] "sockA" "1") "1" :=
  ⟨room_publish_exact_membership.1 [("sockA", "disaster_1")] "1" "sockA",
   room_publish_exact_membership.2.1 [] "1" "sockA",
   room_publish_exact_membership.2.2.1 [] "1" "2" "sockA" (by decide) (by decide),
   room_publish_exact_membership.2.2.2 [("sockA", "disaster_1")] "1" "sockA"⟩

/-! ## Route evaluation lemmas (shared) -/

/-- Cache-miss evaluation of the geocoding route on a reachable store. -/
theorem geocodeRoute_up_miss (dp : GeoDeps) (l : List (CacheEntry GeoResult))
    (body : GeoBody) (now : Int) (input : String)
    (hb : inputTextOf body = some input)
    (hmiss : cacheLookup l ("geocoding_" ++ base64 input) = none) :
    geocodeRoute dp (.up l) body now
      = (.ok (freshGeo dp input).1,
         setCache (.up l) ("geocoding_" ++ base64 input) (freshGeo dp input).1 7200 now,
         (freshGeo dp input).2) := by
  simp [geocodeRoute, hb, getFromCache, hmiss]

/-- Cache-hit evaluation of the geocoding route on a reachable store. -/
theorem geocodeRoute_up_hit (dp : GeoDeps) (l : List (CacheEntry GeoResult))
    (body : GeoBody) (now : Int) (input : String) (e : CacheEntry GeoResult)
    (hb : inputTextOf body = some input)
    (hfind : cacheLookup l ("geocoding_" ++ base64 input) = some e)
    (hfresh : ¬ e.expiresAt < now) :
    geocodeRoute dp (.up l) body now = (.ok e.value, .up l, 0) := by
  simp [geocodeRoute, hb, getFromCache, hfind, hfresh]

/-- Cache-hit evaluation of the verification route on a reachable store. -/
theorem verifyRoute_up_hit (dp : VerifyDeps) (l : List (CacheEntry VerificationResult))
    (reports : List ReportRow) (did : String) (body : VerifyBody) (now : Int)
    (url : String) (e : CacheEntry VerificationResult)
    (hb : truthy body.image_url = some url)
    (hfind : cacheLookup l ("image_verification_" ++ base64 url) = some e)
    (hfresh : ¬ e.expiresAt < now) :
    verifyImageRoute dp (.up l) reports did body now = (.ok e.value, .up l, reports, 0) := by
  simp [verifyImageRoute, hb, getFromCache, hfind, hfresh]

/-- Cache-miss evaluation of the verification route when the disaster
lookup succeeds. -/
theorem verifyRoute_up_miss_found (dp : VerifyDeps) (l : List (CacheEntry VerificationResult))
    (reports : List ReportRow) (did : String) (body : VerifyBody) (now : Int)
    (url : String) (d : Disaster)
    (hb : truthy body.image_url = some url)
    (hmiss : cacheLookup l ("image_verification_" ++ base64 url) = none)
    (hdl : dp.disasterLookup did = .found d) :
    verifyImageRoute dp (.up l) reports did body now
      = (.ok (freshVerify dp url d).1,
         setCache (.up l) ("image_verification_" ++ base64 url) (freshVerify dp url d).1 3600 now,
         (match truthy body.report_id with
          | some rid => updateReport reports rid (freshVerify dp url d).1
          | none => reports),
         (freshVerify dp url d).2) := by
  simp [verifyImageRoute, hb, getFromCache, hmiss, hdl]

/-! ## Claim C5: cache faults are swallowed and transparent -/

/-- C5: on an unreachable or erroring store, `getFromCache` misses and
`setCache` is a no-op (both are total functions, so no fault propagates),
and consequently both resolution routes produce the same response and the
same provider-call count with a faulty cache as with a reachable, empty
cache. -/
theorem cache_fault_transparent :
    (∀ (α : Type) (key : String) (now : Int),
       getFromCache (.down : CacheBackend α) key now = (none, .down) ∧
       getFromCache (.erroring : CacheBackend α) key now = (none, .erroring)) ∧
    (∀ (α : Type) (key : String) (v : α) (ttl now : Int),
       setCache .down key v ttl now = .down ∧
       setCache .erroring key v ttl now = .erroring) ∧
    (∀ (dp : GeoDeps) (body : GeoBody) (now : Int),
       (geocodeRoute dp .down body now).1 = (geocodeRoute dp (.up []) body now).1 ∧
       (geocodeRoute dp .down body now).2.2 = (geocodeRoute dp (.up []) body now).2.2) ∧
    (∀ (dp : VerifyDeps) (reports : List ReportRow) (did : String)
       (body : VerifyBody) (now : Int),
       (verifyImageRoute dp .down reports did body now).1
         = (verifyImageRoute dp (.up []) reports did body now).1 ∧
       (verifyImageRoute dp .down reports did body now).2.2.2
         = (verifyImageRoute dp (.up []) reports did body now).2.2.2) := by
  refine ⟨fun α key now => ⟨rfl, rfl⟩, fun α key v ttl now => ⟨rfl, rfl⟩,
    fun dp body now => ?_, fun dp reports did body now => ?_⟩
  · cases hb : inputTextOf body with
    | none => exact ⟨by simp [geocodeRoute, hb], by simp [geocodeRoute, hb]⟩
    | some input =>
      constructor <;>
        simp [geocodeRoute, hb, getFromCache, cacheLookup]
  · cases hb : truthy body.image_url with
    | none => exact ⟨by simp [verifyImageRoute, hb], by simp [verifyImageRoute, hb]⟩
    | some url =>
      cases hdl : dp.disasterLookup did with
      | found d =>
        constructor <;>
          simp [verifyImageRoute, hb, getFromCache, cacheLookup, hdl]
      | notFound =>
        constructor <;>
          simp [verifyImageRoute, hb, getFromCache, cacheLookup, hdl]
      | dbError msg =>
        constructor <;>
          simp [verifyImageRoute, hb, getFromCache, cacheLookup, hdl]

/-! ## Claim C1: unexpired cache hits bypass the providers -/

/-- C1: on both resolution routes, a request whose derived cache key has an
unexpired entry returns that cached value with zero provider invocations and
an unchanged store; and resolving the same input twice on a reachable store,
starting from a key miss, makes the second call return the first call's
response from cache with zero further provider invocations, provided the
second call happens within the namespace TTL (7200 s for geocoding, 3600 s
for verification) of the first. -/
theorem cache_hit_skips_providers :
    (∀ (dp : GeoDeps) (l : List (CacheEntry GeoResult)) (body : GeoBody)
       (now : Int) (input : String) (e : CacheEntry GeoResult),
       inputTextOf body = some input →
       cacheLookup l ("geocoding_" ++ base64 input) = some e →
       ¬ e.expiresAt < now →
       geocodeRoute dp (.up l) body now = (.ok e.value, .up l, 0)) ∧
    (∀ (dp : GeoDeps) (l : List (CacheEntry GeoResult)) (body : GeoBody)
       (t1 t2 : Int) (input : String),
       inputTextOf body = some input →
       cacheLookup l ("geocoding_" ++ base64 input) = none →
       t2 ≤ t1 + 7200 * 1000 →
       geocodeRoute dp (geocodeRoute dp (.up l) body t1).2.1 body t2
         = ((geocodeRoute dp (.up l) body t1).1,
            (geocodeRoute dp (.up l) body t1).2.1, 0)) ∧
    (∀ (dp : VerifyDeps) (l : List (CacheEntry VerificationResult))
       (reports : List ReportRow) (did : String) (body : VerifyBody)
       (now : Int) (url : String) (e : CacheEntry VerificationResult),
       truthy body.image_url = some url →
       cacheLookup l ("image_verification_" ++ base64 url) = some e →
       ¬ e.expiresAt < now →
       verifyImageRoute dp (.up l) reports did body now
         = (.ok e.value, .up l, reports, 0)) ∧
    (∀ (dp : VerifyDeps) (l : List (CacheEntry VerificationResult))
       (reports : List ReportRow) (did : String) (body : VerifyBody)
       (t1 t2 : Int) (url : String) (d : Disaster),
       truthy body.image_url = some url →
       cacheLookup l ("image_verification_" ++ base64 url) = none →
       dp.disasterLookup did = .found d →
       t2 ≤ t1 + 3600 * 1000 →
       verifyImageRoute dp (verifyImageRoute dp (.up l) reports did body t1).2.1
           (verifyImageRoute dp (.up l) reports did body t1).2.2.1 did body t2
         = ((verifyImageRoute dp (.up l) reports did body t1).1,
            (verifyImageRoute dp (.up l) reports did body t1).2.1,
            (verifyImageRoute dp (.up l) reports did body t1).2.2.1, 0)) := by
  refine ⟨geocodeRoute_up_hit, ?_, verifyRoute_up_hit, ?_⟩
  · intro dp l body t1 t2 input hb hmiss httl
    rw [geocodeRoute_up_miss dp l body t1 input hb hmiss]
    simp only [setCache]
    apply geocodeRoute_up_hit dp _ body t2 input
      ⟨"geocoding_" ++ base64 input, (freshGeo dp input).1, t1 + 7200 * 1000⟩ hb
    · unfold cacheLookup
      simp [List.find?]
    · simp only []
      omega
  · intro dp l reports did body t1 t2 url d hb hmiss hdl httl
    rw [verifyRoute_up_miss_found dp l reports did body t1 url d hb hmiss hdl]
    simp only [setCache]
    apply verifyRoute_up_hit dp _ _ did body t2 url
      ⟨"image_verification_" ++ base64 url, (freshVerify dp url d).1, t1 + 3600 * 1000⟩ hb
    · unfold cacheLookup
      simp [List.find?]
    · simp only []
      omega

/-- Provider-free geocoding dependencies used by concrete scenarios. -/
def geoDepsW : GeoDeps :=
  { geminiKey := false
    geminiExtractRaw := fun _ => .error "network unavailable"
    googleKey := false
    googleGeo := fun _ => .error "network unavailable"
    mapboxKey := false
    mapboxGeo := fun _ => .error "network unavailable"
    nominatimGeo := fun _ => .error "network unavailable" }

/-- Concrete verification dependencies: no provider, disaster found. -/
def verifyDepsW : VerifyDeps :=
  { geminiKey := false
    geminiAnalyze := fun _ => .error "network unavailable"
    disasterLookup := fun _ => .found ⟨["flood"], some "Manhattan, NYC"⟩
    rand := 0
    ts := "t" }

/-- Witness for C1: all four parts at concrete stores, bodies, and times. -/
theorem cache_hit_skips_providers_witness :
    geocodeRoute geoDepsW
        (.up [⟨"geocoding_" ++ base64 "x", mockLocationExtraction "x", 100⟩])
        ⟨some "x", none⟩ 50
      = (.ok (mockLocationExtraction "x"),
         .up [⟨"geocoding_" ++ base64 "x", mockLocationExtraction "x", 100⟩], 0) ∧
    geocodeRoute geoDepsW (geocodeRoute geoDepsW (.up []) ⟨some "x", none⟩ 0).2.1
        ⟨some "x", none⟩ 5
      = ((geocodeRoute geoDepsW (.up []) ⟨some "x", none⟩ 0).1,
         (geocodeRoute geoDepsW (.up []) ⟨some "x", none⟩ 0).2.1, 0) ∧
    verifyImageRoute verifyDepsW
        (.up [⟨"image_verification_" ++ base64 "http://img.example/a.jpg",
               mockImageVerification "http://img.example/a.jpg" ⟨["flood"], some "Manhattan, NYC"⟩ 0 "t", 100⟩])
        [] "d1" ⟨some "http://img.example/a.jpg", none⟩ 50
      = (.ok (mockImageVerification "http://img.example/a.jpg" ⟨["flood"], some "Manhattan, NYC"⟩ 0 "t"),
         .up [⟨"image_verification_" ++ base64 "http://img.example/a.jpg",
               mockImageVerification "http://img.example/a.jpg" ⟨["flood"], some "Manhattan, NYC"⟩ 0 "t", 100⟩],
         [], 0) ∧
    verifyImageRoute verifyDepsW
        (verifyImageRoute verifyDepsW (.up []) [] "d1" ⟨some "http://img.example/a.jpg", none⟩ 0).2.1
        (verifyImageRoute verifyDepsW (.up []) [] "d1" ⟨some "http://img.example/a.jpg", none⟩ 0).2.2.1
        "d1" ⟨some "http://img.example/a.jpg", none⟩ 5
      = ((verifyImageRoute verifyDepsW (.up []) [] "d1" ⟨some "http://img.example/a.jpg", none⟩ 0).1,
         (verifyImageRoute verifyDepsW (.up []) [] "d1" ⟨some "http://img.example/a.jpg", none⟩ 0).2.1,
         (verifyImageRoute verifyDepsW (.up []) [] "d1" ⟨some "http://img.example/a.jpg", none⟩ 0).2.2.1, 0) :=
  ⟨cache_hit_skips_providers.1 geoDepsW _ ⟨some "x", none⟩ 50 "x"
     ⟨"geocoding_" ++ base64 "x", mockLocationExtraction "x", 100⟩ rfl rfl (by decide),
   cache_hit_skips_providers.2.1 geoDepsW [] ⟨some "x", none⟩ 0 5 "x" rfl rfl (by decide),
   cache_hit_skips_providers.2.2.1 verifyDepsW _ [] "d1" ⟨some "http://img.example/a.jpg", none⟩ 50
     "http://img.example/a.jpg"
     ⟨"image_verification_" ++ base64 "http://img.example/a.jpg",
      mockImageVerification "http://img.example/a.jpg" ⟨["flood"], some "Manhattan, NYC"⟩ 0 "t", 100⟩
     rfl rfl (by decide),
   cache_hit_skips_providers.2.2.2 verifyDepsW [] [] "d1" ⟨some "http://img.example/a.jpg", none⟩ 0 5
     "http://img.example/a.jpg" ⟨["flood"], some "Manhattan, NYC"⟩ rfl rfl rfl (by decide)⟩

/-! ## Claim C6: end-to-end fallback geocoding of the Manhattan text -/

/-- The end-to-end input text of the claim. -/
def c6Text : String := "Flooding near Manhattan, NYC, need food"

/-- C6: with no text-extraction provider configured, the geocoding route
resolves the Manhattan text through the fallback pattern matching without
contacting any provider: the extracted location contains "Manhattan", it has
no entry in the gazetteer so the baseline "New York, NY" coordinates are
used, and the service tag is "mock". -/
theorem manhattan_fallback_end_to_end :
    (geocodeRoute geoDepsW (.up []) ⟨some c6Text, none⟩ 0).1
      = .ok (mockLocationExtraction c6Text) ∧
    (geocodeRoute geoDepsW (.up []) ⟨some c6Text, none⟩ 0).2.2 = 0 ∧
    containsSub "Manhattan".data (mockLocationExtraction c6Text).extracted_location.data = true ∧
    mockCoordinates.lookup (mockLocationExtraction c6Text).extracted_location = none ∧
    (mockLocationExtraction c6Text).coordinates.lat = 407128/10000 ∧
    (mockLocationExtraction c6Text).coordinates.lng = -740060/10000 ∧
    mockCoordinates.lookup "New York, NY" = some (407128/10000, -740060/10000) ∧
    (mockLocationExtraction c6Text).coordinates.service = "mock" ∧
    (mockLocationExtraction c6Text).success = true := by
  refine ⟨rfl, rfl, by decide, rfl, rfl, rfl, rfl, rfl, rfl⟩

/-! ## Claim C8: rejection conditions (corrected) -/

/-- Verification dependencies whose disaster lookup finds no row. -/
def verifyDepsNotFound : VerifyDeps :=
  { geminiKey := true
    geminiAnalyze := fun _ => .ok ⟨90, false, true, "clean", "high"⟩
    disasterLookup := fun _ => .notFound
    rand := 0
    ts := "t" }

/-- Counterexample to C8 as stated: a verification request with a nonempty
payload (a present `image_url`) is still rejected, because the disaster
lookup finds no row — so the empty payload is not the only rejection
condition, and this rejection happens after the cache was consulted. -/
theorem verify_rejects_on_missing_disaster_cex :
    truthy (some "http://img.example/a.jpg") = some "http://img.example/a.jpg" ∧
    (verifyImageRoute verifyDepsNotFound (.up []) [] "d1"
        ⟨some "http://img.example/a.jpg", none⟩ 0).1 = .notFound "Disaster not found" ∧
    ((verifyImageRoute verifyDepsNotFound (.up []) [] "d1"
        ⟨some "http://img.example/a.jpg", none⟩ 0).1).isErr = true :=
  ⟨rfl, rfl, rfl⟩

/-- C8 amended: an empty or missing payload is the only condition under
which a geocoding request is rejected, and on both routes the payload check
precedes cache and providers; an image-verification request is additionally
rejected when the disaster lookup fails (404 when no row, 500 on a store
error) — after the cache check but before any provider; provider failures
never surface: they yield a fallback result. -/
theorem rejection_conditions_amended :
    (∀ (dp : GeoDeps) (cache : CacheBackend GeoResult) (body : GeoBody) (now : Int),
       inputTextOf body = none →
       geocodeRoute dp cache body now
         = (.badRequest "Text or description is required", cache, 0)) ∧
    (∀ (dp : GeoDeps) (cache : CacheBackend GeoResult) (body : GeoBody)
       (now : Int) (input : String),
       inputTextOf body = some input →
       (geocodeRoute dp cache body now).1.isErr = false) ∧
    (∀ (dp : VerifyDeps) (cache : CacheBackend VerificationResult)
       (reports : List ReportRow) (did : String) (body : VerifyBody) (now : Int),
       truthy body.image_url = none →
       verifyImageRoute dp cache reports did body now
         = (.badRequest "Image URL is required", cache, reports, 0)) ∧
    (∀ (dp : VerifyDeps) (l : List (CacheEntry VerificationResult))
       (reports : List ReportRow) (did : String) (body : VerifyBody)
       (now : Int) (url : String),
       truthy body.image_url = some url →
       cacheLookup l ("image_verification_" ++ base64 url) = none →
       dp.disasterLookup did = .notFound →
       (verifyImageRoute dp (.up l) reports did body now).1
         = .notFound "Disaster not found") ∧
    (∀ (dp : VerifyDeps) (l : List (CacheEntry VerificationResult))
       (reports : List ReportRow) (did : String) (body : VerifyBody)
       (now : Int) (url msg : String),
       truthy body.image_url = some url →
       cacheLookup l ("image_verification_" ++ base64 url) = none →
       dp.disasterLookup did = .dbError msg →
       (verifyImageRoute dp (.up l) reports did body now).1 = .serverError msg) ∧
    (∀ (dp : VerifyDeps) (l : List (CacheEntry VerificationResult))
       (reports : List ReportRow) (did : String) (body : VerifyBody)
       (now : Int) (url : String) (d : Disaster),
       truthy body.image_url = some url →
       cacheLookup l ("image_verification_" ++ base64 url) = none →
       dp.disasterLookup did = .found d →
       (dp.geminiKey = false ∨ ∃ msg, dp.geminiAnalyze url = .error msg) →
       (verifyImageRoute dp (.up l) reports did body now).1
         = .ok (mockImageVerification url d dp.rand dp.ts)) := by
  refine ⟨fun dp cache body now hb => by simp [geocodeRoute, hb],
    fun dp cache body now input hb => ?_,
    fun dp cache reports did body now hb => by simp [verifyImageRoute, hb],
    fun dp l reports did body now url hb hmiss hdl => by
      simp [verifyImageRoute, hb, getFromCache, hmiss, hdl],
    fun dp l reports did body now url msg hb hmiss hdl => by
      simp [verifyImageRoute, hb, getFromCache, hmiss, hdl],
    fun dp l reports did body now url d hb hmiss hdl hprov => ?_⟩
  · simp only [geocodeRoute, hb]
    rcases hgc : getFromCache cache ("geocoding_" ++ base64 input) now with ⟨o, c1⟩
    cases o <;> simp [hgc, GeoResponse.isErr]
  · rw [verifyRoute_up_miss_found dp l reports did body now url d hb hmiss hdl]
    rcases hprov with hkey | ⟨msg, herr⟩
    · simp [freshVerify, hkey]
    · cases hk : dp.geminiKey with
      | false => simp [freshVerify, hk]
      | true => simp [freshVerify, hk, herr]

/-- Verification dependencies whose disaster lookup errors. -/
def verifyDepsDbError : VerifyDeps :=
  { geminiKey := true
    geminiAnalyze := fun _ => .ok ⟨90, false, true, "clean", "high"⟩
    disasterLookup := fun _ => .dbError "connection refused"
    rand := 0
    ts := "t" }

/-- Witness for the amended C8 at concrete requests: empty payloads are
rejected on both routes, a nonempty geocoding payload is never rejected, the
two lookup-failure rejections occur, and a provider failure still yields an
`ok` fallback response. -/
theorem rejection_conditions_amended_witness :
    geocodeRoute geoDepsW (.up []) ⟨none, some ""⟩ 0
      = (.badRequest "Text or description is required", .up [], 0) ∧
    (geocodeRoute geoDepsW (.up []) ⟨some "x", none⟩ 0).1.isErr = false ∧
    verifyImageRoute verifyDepsW (.up []) [] "d1" ⟨some "", none⟩ 0
      = (.badRequest "Image URL is required", .up [], [], 0) ∧
    (verifyImageRoute verifyDepsNotFound (.up []) [] "d1" ⟨some "u", none⟩ 0).1
      = .notFound "Disaster not found" ∧
    (verifyImageRoute verifyDepsDbError (.up []) [] "d1" ⟨some "u", none⟩ 0).1
      = .serverError "connection refused" ∧
    (verifyImageRoute verifyDepsW (.up []) [] "d1" ⟨some "u", none⟩ 0).1
      = .ok (mockImageVerification "u" ⟨["flood"], some "Manhattan, NYC"⟩
               verifyDepsW.rand verifyDepsW.ts) :=
  ⟨rejection_conditions_amended.1 geoDepsW (.up []) ⟨none, some ""⟩ 0 rfl,
   rejection_conditions_amended.2.1 geoDepsW (.up []) ⟨some "x", none⟩ 0 "x" rfl,
   rejection_conditions_amended.2.2.1 verifyDepsW (.up []) [] "d1" ⟨some "", none⟩ 0 rfl,
   rejection_conditions_amended.2.2.2.1 verifyDepsNotFound [] [] "d1" ⟨some "u", none⟩ 0 "u" rfl rfl rfl,
   rejection_conditions_amended.2.2.2.2.1 verifyDepsDbError [] [] "d1" ⟨some "u", none⟩ 0 "u"
     "connection refused" rfl rfl rfl,
   rejection_conditions_amended.2.2.2.2.2 verifyDepsW [] [] "d1" ⟨some "u", none⟩ 0 "u"
     ⟨["flood"], some "Manhattan, NYC"⟩ rfl rfl rfl (Or.inl rfl)⟩

/-! ## Claim C7: urgent/full-overlap items outscore low/no-overlap items -/

/-- A conditional-increment fold over items none of which match leaves the
accumulator unchanged. -/
theorem foldl_addIf_all_false {α : Type} (p : α → Bool) (w : ℚ) :
    ∀ (l : List α) (s : ℚ), (∀ x ∈ l, p x = false) →
      l.foldl (fun s x => if p x then s + w else s) s = s
  | [], _, _ => rfl
  | x :: t, s, h => by
    have hx : p x = false := h x (List.mem_cons_self x t)
    simp only [List.foldl_cons, hx, Bool.false_eq_true, if_false]
    exact foldl_addIf_all_false p w t s fun y hy => h y (List.mem_cons_of_mem x hy)

/-- A conditional-increment fold with nonnegative increment never decreases
the accumulator. -/
theorem foldl_addIf_le {α : Type} (p : α → Bool) (w : ℚ) (hw : 0 ≤ w) :
    ∀ (l : List α) (s : ℚ), s ≤ l.foldl (fun s x => if p x then s + w else s) s
  | [], s => le_refl s
  | x :: t, s => by
    simp only [List.foldl_cons]
    have h2 := foldl_addIf_le p w hw t (if p x = true then s + w else s)
    refine le_trans ?_ h2
    split <;> linarith

/-- C7: a post with priority "urgent" whose body contains every disaster tag
and every token of the disaster's location name scores strictly higher than
an otherwise-identical post (same timestamp) with priority "low" and no tag
or location overlap. -/
theorem urgent_full_overlap_beats_low
    (d : Disaster) (a b : Post) (now : ℚ)
    (hpa : a.priority = "urgent") (hpb : b.priority = "low")
    (ht : a.timestamp = b.timestamp)
    (hta : ∀ tag ∈ d.tags, containsSub (lowerL tag.data) (lowerL a.post.data) = true)
    (htb : ∀ tag ∈ d.tags, containsSub (lowerL tag.data) (lowerL b.post.data) = false)
    (hla : ∀ ln : String, d.location_name = some ln →
      ∀ kw ∈ splitRuns (lowerL ln.data), containsSub kw (lowerL a.post.data) = true)
    (hlb : ∀ ln : String, d.location_name = some ln →
      ∀ kw ∈ splitRuns (lowerL ln.data), containsSub kw (lowerL b.post.data) = false) :
    calculateRelevanceScore b d now < calculateRelevanceScore a d now := by
  unfold calculateRelevanceScore
  rw [hpa, hpb, ht]
  simp only [show (priorityScores.lookup "urgent").getD 0 = (10 : ℚ) from rfl,
    show (priorityScores.lookup "low").getD 0 = (2 : ℚ) from rfl]
  have htagA : (10 : ℚ) ≤ d.tags.foldl
      (fun s tag => if containsSub (lowerL tag.data) (lowerL a.post.data) then s + 5 else s)
      (10 : ℚ) :=
    foldl_addIf_le _ 5 (by norm_num) d.tags 10
  have htagB : d.tags.foldl
      (fun s tag => if containsSub (lowerL tag.data) (lowerL b.post.data) then s + 5 else s)
      (2 : ℚ) = 2 :=
    foldl_addIf_all_false _ 5 d.tags 2 htb
  cases hln : d.location_name with
  | none =>
    dsimp only
    rw [htagB]
    apply add_lt_add_right
    linarith
  | some ln =>
    dsimp only
    by_cases hemp : ln = ""
    · rw [if_pos hemp, if_pos hemp, htagB]
      apply add_lt_add_right
      linarith
    · rw [if_neg hemp, if_neg hemp]
      have hlocB : (splitRuns (lowerL ln.data)).foldl
          (fun s keyword => if containsSub keyword (lowerL b.post.data) then s + 3 else s)
          (2 : ℚ) = 2 :=
        foldl_addIf_all_false _ 3 (splitRuns (lowerL ln.data)) 2 (hlb ln hln)
      have hlocA := foldl_addIf_le (fun kw => containsSub kw (lowerL a.post.data)) 3
        (by norm_num) (splitRuns (lowerL ln.data))
        (d.tags.foldl
          (fun s tag => if containsSub (lowerL tag.data) (lowerL a.post.data) then s + 5 else s)
          (10 : ℚ))
      rw [htagB, hlocB]
      apply add_lt_add_right
      linarith

/-- Witness for C7 on concrete posts: an urgent flood post mentioning
Manhattan and NYC against a low-priority unrelated post. -/
theorem urgent_full_overlap_beats_low_witness :
    calculateRelevanceScore ⟨"u2", "quiet evening by the lake", 0, "twitter", "low", []⟩
        ⟨["flood"], some "Manhattan, NYC"⟩ 0
      < calculateRelevanceScore ⟨"u1", "Flood warning for Manhattan and NYC", 0, "twitter", "urgent", []⟩
        ⟨["flood"], some "Manhattan, NYC"⟩ 0 :=
  urgent_full_overlap_beats_low ⟨["flood"], some "Manhattan, NYC"⟩
    ⟨"u1", "Flood warning for Manhattan and NYC", 0, "twitter", "urgent", []⟩
    ⟨"u2", "quiet evening by the lake", 0, "twitter", "low", []⟩ 0
    rfl rfl rfl
    (by intro tag htag; fin_cases htag; decide)
    (by intro tag htag; fin_cases htag; decide)
    (by
      intro ln hln kw hkw
      injection hln with h1
      subst h1
      fin_cases hkw <;> decide)
    (by
      intro ln hln kw hkw
      injection hln with h1
      subst h1
      fin_cases hkw <;> decide)
